import Mathlib

/-!
Verification of the clinic-ui appointment lifecycle manager against its
TypeScript source: the appointment status state machine, the role-based
visibility filter, the booking / cancellation validations, the time-string
conversions, the payment split calculator and the load-error handling.

Conventions of the embedding:
  - calendar dates ("YYYY-MM-DD" strings compared with `<`, `===`) are modelled
    as day numbers (`Int`);
  - wall-clock instants are modelled as seconds (`Int`), with
    `1440` minutes respectively `86400` seconds per day;
  - time strings ("HH:MM", optionally " AM"/" PM") are modelled structurally
    as hour/minute fields plus an optional meridiem marker — the string
    splitting and zero-padding of the source is a bijection between the
    well-formed strings and these records;
  - `status` is kept as a `String`, as it is at runtime after TypeScript type
    erasure; the six legal values are collected in `appointmentStatuses`;
  - monetary amounts are modelled as exact rationals (`Rat`).
-/

namespace ClinicUI

/-- Meridiem marker of a 12-hour time string (the "AM"/"PM" suffix). -/
inductive Meridiem where
  | am
  | pm
deriving DecidableEq, Repr

/-- Structured form of a time string: `"HH:MM"` optionally followed by
`" AM"` / `" PM"`.  `meridiem = none` models a plain 24-hour string. -/
structure TimeStr where
  hh : Nat
  mm : Nat
  meridiem : Option Meridiem
deriving DecidableEq, Repr

/-- Appointment record (`Appointment` interface,
src/app/services/appointment.service.ts). -/
structure Appointment where
  id : Nat
  patientName : String
  patientInitials : String
  doctor : String
  date : Int
  time : TimeStr
  type : String
  reason : String
  status : String
  phone : String
  email : String
  cancellationMessage : Option String
  cancelledBy : Option String
  amount : Rat
  paymentStatus : String
deriving DecidableEq, Repr

/-- The six values of the `Appointment['status']` union type. -/
def appointmentStatuses : List String :=
  ["pending_approval", "accepted", "scheduled", "completed", "cancelled", "denied"]

/-- A status string is valid when it belongs to the six-valued union type. -/
def validStatus (s : String) : Bool :=
  appointmentStatuses.contains s

/-- A `Partial<Appointment>` update object: `some` marks a field as present.
Only the fields that call sites actually pass are modelled. -/
structure AppointmentUpdate where
  patientName : Option String := none
  doctor : Option String := none
  doctorId : Option Nat := none
  date : Option Int := none
  time : Option TimeStr := none
  type : Option String := none
  reason : Option String := none
  status : Option String := none
  phone : Option String := none
  email : Option String := none
  cancellationMessage : Option String := none
  cancelledBy : Option String := none
deriving DecidableEq, Repr

/-- JavaScript object spread `{ ...apt, ...updates }`: every field present in
`updates` overwrites the corresponding field of `apt`. -/
def applyUpdates (apt : Appointment) (updates : AppointmentUpdate) : Appointment :=
  { apt with
    patientName := updates.patientName.getD apt.patientName
    doctor := updates.doctor.getD apt.doctor
    date := updates.date.getD apt.date
    time := updates.time.getD apt.time
    type := updates.type.getD apt.type
    reason := updates.reason.getD apt.reason
    status := updates.status.getD apt.status
    phone := updates.phone.getD apt.phone
    email := updates.email.getD apt.email
    cancellationMessage := updates.cancellationMessage.orElse
      (fun _ => apt.cancellationMessage)
    cancelledBy := updates.cancelledBy.orElse (fun _ => apt.cancelledBy) }

/-- `AppointmentService.updateAppointment` (appointment.service.ts 158-171):
find the index of the appointment with the given id and merge the updates into
it; when no appointment matches, the list is returned unchanged (the source
returns `null`). -/
def updateAppointment (appointments : List Appointment) (id : Nat)
    (updates : AppointmentUpdate) : List Appointment :=
  match appointments.findIdx? (fun apt => apt.id == id) with
  | none => appointments
  | some index =>
    match appointments[index]? with
    | none => appointments
    | some apt => appointments.set index (applyUpdates apt updates)

/-! ### Payment split calculator (payment.service.ts) -/

/-- `PaymentService.CLINIC_TAX_RATE = 0.20`. -/
def CLINIC_TAX_RATE : Rat := 20 / 100

/-- `PaymentService.DOCTOR_EARNING_RATE = 0.80`. -/
def DOCTOR_EARNING_RATE : Rat := 80 / 100

/-- Result record of `calculatePaymentBreakdown`. -/
structure PaymentBreakdown where
  clinicTax : Rat
  doctorEarning : Rat
deriving DecidableEq, Repr

/-- `PaymentService.calculatePaymentBreakdown` (payment.service.ts 319-325). -/
def calculatePaymentBreakdown (amount : Rat) : PaymentBreakdown :=
  { clinicTax := amount * CLINIC_TAX_RATE
    doctorEarning := amount * DOCTOR_EARNING_RATE }

/-- Payment record (`Payment` interface, payment.service.ts 9-25). -/
structure Payment where
  id : Nat
  appointmentId : Nat
  patientName : String
  doctor : String
  date : Int
  time : TimeStr
  amount : Rat
  clinicTax : Rat
  doctorEarning : Rat
  status : String
  paymentDate : Option Int
  paymentMethod : String
  cardLast4 : Option String
  createdAt : Int
deriving DecidableEq, Repr

/-- `PaymentService.getPaymentsByDoctor` (payment.service.ts 474-477); the
stored `paymentsSubject.value` list is passed explicitly. -/
def getPaymentsByDoctor (paymentsState : List Payment) (doctorName : String) :
    List Payment :=
  paymentsState.filter (fun p => p.doctor == doctorName)

/-- Result record of `getDoctorStatistics`. -/
structure DoctorStatistics where
  totalEarnings : Rat
  totalAppointments : Nat
  clinicTaxTotal : Rat
  netEarnings : Rat
  payments : List Payment
deriving DecidableEq, Repr

/-- `PaymentService.getDoctorStatistics` (payment.service.ts 484-504):
keep the doctor's payments with status `'paid'` and reduce their amounts,
clinic taxes and doctor earnings. -/
def getDoctorStatistics (paymentsState : List Payment) (doctorName : String) :
    DoctorStatistics :=
  let payments :=
    (getPaymentsByDoctor paymentsState doctorName).filter
      (fun p => p.status == "paid")
  { totalEarnings := payments.foldl (fun sum p => sum + p.amount) 0
    totalAppointments := payments.length
    clinicTaxTotal := payments.foldl (fun sum p => sum + p.clinicTax) 0
    netEarnings := payments.foldl (fun sum p => sum + p.doctorEarning) 0
    payments := payments }

/-! ### Time handling (appointments.ts) -/

/-- The in-place 24-hour normalization inside `isAppointmentTimePassed`
(appointments.ts 986-1002): `if (modifier === 'PM' && hours !== '12')` add 12;
`else if (modifier === 'AM' && hours === '12')` set the hours to 0. -/
def normalizeHours (t : TimeStr) : Nat :=
  if t.meridiem == some Meridiem.pm && t.hh != 12 then t.hh + 12
  else if t.meridiem == some Meridiem.am && t.hh == 12 then 0
  else t.hh

/-- The instant `aptDate.setHours(hours, minutes, 0, 0)` built by
`isAppointmentTimePassed`, in seconds. -/
def appointmentInstant (apt : Appointment) : Int :=
  ((apt.date * 24 + normalizeHours apt.time) * 60 + apt.time.mm) * 60

/-- `Appointments.isAppointmentTimePassed` (appointments.ts 986-1002):
`now > aptDate` after combining the appointment's date with its normalized
time. -/
def isAppointmentTimePassed (apt : Appointment) (now : Int) : Bool :=
  now > appointmentInstant apt

/-- The instant of day `d` at `h` hours and `m` minutes, in seconds. -/
def mkInstant (d : Int) (h m : Nat) : Int :=
  ((d * 24 + h) * 60 + m) * 60

/-- The spec's own normalization of a 12-hour time to 24-hour form, written
from the spec's words for comparison with the source's `normalizeHours`:
12 AM maps to hour 00, 12 PM stays hour 12, other PM hours gain 12. -/
def to24HourSpec (t : TimeStr) : Nat :=
  match t.meridiem with
  | some Meridiem.am => if t.hh == 12 then 0 else t.hh
  | some Meridiem.pm => if t.hh == 12 then 12 else t.hh + 12
  | none => t.hh

/-- The spec's `combine(date, time)` at second precision, using the spec's
normalization. -/
def combineSpec (date : Int) (t : TimeStr) : Int :=
  ((date * 24 + to24HourSpec t) * 60 + t.mm) * 60

/-- A concrete appointment used to instantiate the spec's examples; only the
`date` and `time` fields matter to the time-passed check. -/
def sampleAppointment (d : Int) (t : TimeStr) : Appointment :=
  ⟨1, "John Doe", "JD", "Dr. Smith", d, t, "Checkup", "Checkup", "accepted",
    "", "", none, none, 150, "pending"⟩

/-- `Appointments.convertTo12Hour` (appointments.ts 1085-1092) on the
structured form of a `"HH:MM"` string: `hour % 12 || 12` picks the 12-hour
hour and `hour >= 12` picks the meridiem; minutes pass through. -/
def convertTo12Hour (time24h : TimeStr) : TimeStr :=
  let hour := time24h.hh
  let modifier := if hour ≥ 12 then Meridiem.pm else Meridiem.am
  let hour12 := if hour % 12 == 0 then 12 else hour % 12
  ⟨hour12, time24h.mm, some modifier⟩

/-- `Appointments.convertTo24Hour` (appointments.ts 1071-1082) on the
structured form of a `"hh:mm AM/PM"` string: `'12'` becomes `'00'` first,
then PM adds 12; minutes pass through and the result carries no meridiem. -/
def convertTo24Hour (time12h : TimeStr) : TimeStr :=
  let hours := if time12h.hh == 12 then 0 else time12h.hh
  let hours := if time12h.meridiem == some Meridiem.pm then hours + 12 else hours
  ⟨hours, time12h.mm, none⟩

/-! ### Role-based visibility filter (part_001 `filteredAppointments`) -/

/-- User record (`User` interface, user.service.ts): `doctorName` is only set
for the doctor role. -/
structure User where
  id : Nat
  name : String
  email : String
  role : String
  doctorName : Option String
deriving DecidableEq, Repr

/-- Whether `pattern` starts the character list `text`. -/
def listStarts : List Char → List Char → Bool
  | [], _ => true
  | _ :: _, [] => false
  | p :: ps, t :: ts => p == t && listStarts ps ts

/-- Whether `pattern` occurs contiguously inside `text`. -/
def listOccurs (pattern : List Char) : List Char → Bool
  | [] => pattern.isEmpty
  | t :: ts => listStarts pattern (t :: ts) || listOccurs pattern ts

/-- JavaScript `s.includes(term)`: contiguous substring test. -/
def jsIncludes (s term : String) : Bool :=
  listOccurs term.toList s.toList

/-- JavaScript `s.trim()`: strip leading and trailing whitespace. -/
def jsTrim (s : String) : String :=
  (((s.toList.dropWhile Char.isWhitespace).reverse.dropWhile
      Char.isWhitespace).reverse).asString

/-- JavaScript `s.toUpperCase()` (ASCII, which covers every string the code
compares). -/
def jsToUpper (s : String) : String :=
  (s.toList.map Char.toUpper).asString

/-- JavaScript `s.toLowerCase()` (ASCII). -/
def jsToLower (s : String) : String :=
  (s.toList.map Char.toLower).asString

/-- `Appointments.filteredAppointments` (part_001 110-166): role filter
(doctor → own doctor name, patient → own patient name, others → all), then
search-term filter, then status filter, then date-range filter, applied in
that order.  `today` is the current calendar day; `monthFromNow` is the
environment-supplied result of `setMonth(today.getMonth() + 1)`, which the
day-number embedding cannot compute. -/
def filteredAppointments (user : Option User) (appointments : List Appointment)
    (searchTerm : String) (statusFilter : String) (dateFilter : String)
    (today monthFromNow : Int) : List Appointment :=
  match user with
  | none => []
  | some u =>
    let filtered := appointments
    let filtered :=
      if u.role == "doctor" then
        filtered.filter (fun apt =>
          match u.doctorName with
          | some dn => apt.doctor == dn
          | none => false)
      else if u.role == "patient" then
        filtered.filter (fun apt => apt.patientName == u.name)
      else filtered
    let filtered :=
      if searchTerm != "" then
        let term := jsToLower searchTerm
        filtered.filter (fun apt =>
          jsIncludes (jsToLower apt.patientName) term ||
          jsIncludes (jsToLower apt.doctor) term ||
          jsIncludes (jsToLower apt.type) term)
      else filtered
    let filtered :=
      if statusFilter != "all" then
        filtered.filter (fun apt => apt.status == statusFilter)
      else filtered
    let filtered :=
      if dateFilter != "all" then
        filtered.filter (fun apt =>
          if dateFilter == "today" then apt.date == today
          else if dateFilter == "week" then
            decide (today ≤ apt.date) && decide (apt.date ≤ today + 7)
          else if dateFilter == "month" then
            decide (today ≤ apt.date) && decide (apt.date ≤ monthFromNow)
          else true)
      else filtered
    filtered

/-! ### Cancellation and booking (appointments.ts, second component variant,
roles `'DOCTOR'` / `'PATIENT'` / `'ADMIN'`) -/

/-- `Appointments.isAppointmentToday` (appointments.ts 1005-1008): string
equality of the appointment's date with today's date. -/
def isAppointmentToday (apt : Appointment) (today : Int) : Bool :=
  apt.date == today

/-- `Appointments.canCancelAppointment` (appointments.ts 1011-1027): a doctor
may cancel unless the appointment is today or already cancelled/completed; a
patient may cancel unless the time has passed or the status is
cancelled/completed/denied; nobody else may cancel. -/
def canCancelAppointment (user : Option User) (apt : Appointment)
    (today now : Int) : Bool :=
  match user with
  | none => false
  | some u =>
    if u.role == "DOCTOR" then
      !(isAppointmentToday apt today) &&
        apt.status != "cancelled" &&
        apt.status != "completed"
    else if u.role == "PATIENT" then
      !(isAppointmentTimePassed apt now) &&
        apt.status != "cancelled" &&
        apt.status != "completed" &&
        apt.status != "denied"
    else false

/-- The body of a create request
(`AppointmentService.createAppointment` argument). -/
structure CreateRequest where
  doctorId : Nat
  date : Int
  time : TimeStr
  reason : String
  paymentMethod : String
  amount : Rat
deriving DecidableEq, Repr

/-- A call the component makes on `AppointmentService`. -/
inductive ServiceRequest where
  | update (id : Nat) (updates : AppointmentUpdate)
  | create (req : CreateRequest)
  | delete (id : Nat)
deriving DecidableEq, Repr

/-- `Appointments.confirmCancelAppointment` (appointments.ts 1295-1314): bail
out with no state change when there is no user or the trimmed cancellation
message is empty; otherwise, when an appointment is being cancelled, issue one
update request setting status `'cancelled'` and recording the message and the
user's role, applied to the stored list via
`AppointmentService.updateAppointment`.  Returns the new stored list and the
requests issued. -/
def confirmCancelAppointment (user : Option User) (message : String)
    (cancelling : Option Appointment) (appointments : List Appointment) :
    List Appointment × List ServiceRequest :=
  match user with
  | none => (appointments, [])
  | some u =>
    if jsTrim message == "" then (appointments, [])
    else
      match cancelling with
      | none => (appointments, [])
      | some apt =>
        let updates : AppointmentUpdate :=
          { status := some "cancelled"
            cancellationMessage := some message
            cancelledBy := some u.role }
        (updateAppointment appointments apt.id updates,
          [ServiceRequest.update apt.id updates])

/-- The booking form of `Appointments.saveAppointment`: `none` models the
empty date / time strings of an untouched form; `time` is the 24-hour
`"HH:MM"` dropdown value. -/
structure BookingForm where
  doctorId : Nat
  date : Option Int
  time : Option TimeStr
  reason : String
  paymentMethod : String
  amount : Rat
deriving DecidableEq, Repr

/-- `Appointments.saveAppointment`, create branch (appointments.ts
1192-1264): reject when no doctor is selected, date or time is empty, the
trimmed reason is empty, the date is before today (calendar-day comparison),
the hour is below 9 or above 21, or the date is today and the selected time
(seconds zeroed) is before the current time; otherwise issue the create
request.  `nowSec` is the current time as seconds since today's midnight. -/
def saveAppointment (form : BookingForm) (today : Int) (nowSec : Nat) :
    Option CreateRequest :=
  if form.doctorId == 0 then none
  else
    match form.date, form.time with
    | none, _ => none
    | some _, none => none
    | some d, some t =>
      if jsTrim form.reason == "" then none
      else if d < today then none
      else if t.hh < 9 || 21 < t.hh then none
      else if d == today && decide ((t.hh * 60 + t.mm) * 60 < nowSec) then none
      else some ⟨form.doctorId, d, t, form.reason, form.paymentMethod, form.amount⟩

/-! ### Backend payloads and the load operations
(appointment.service.ts 457-588, payment.service.ts 117-209) -/

/-- An HTTP/network failure delivered to `catchError`. -/
structure HttpError where
  status : Nat
  message : String
deriving DecidableEq, Repr

/-- JavaScript `o || dflt` on an optional string: `null`, `undefined` and the
empty string all fall through to the default. -/
def jsOr (o : Option String) (dflt : String) : String :=
  match o with
  | some s => if s == "" then dflt else s
  | none => dflt

/-- JavaScript `o || dflt` on an optional number: `null`, `undefined` and `0`
all fall through to the default. -/
def jsOrRat (o : Option Rat) (dflt : Rat) : Rat :=
  match o with
  | some a => if a == 0 then dflt else a
  | none => dflt

/-- Nested patient object of a backend payload. -/
structure BackendPatient where
  id : Nat
  username : Option String
  email : Option String
deriving DecidableEq, Repr

/-- Nested doctor object of a backend payload. -/
structure BackendDoctor where
  id : Nat
  name : Option String
deriving DecidableEq, Repr

/-- `BackendAppointment` (appointment.service.ts 237-257): `appointmentTime`
is the parsed ISO datetime in seconds, `none` modelling `null`. -/
structure BackendAppointment where
  id : Nat
  reason : Option String
  appointmentTime : Option Int
  patient : Option BackendPatient
  doctor : Option BackendDoctor
  status : Option String
  paymentMethod : Option String
  amount : Option Rat
  paymentStatus : Option String
deriving DecidableEq, Repr

/-- The 12-hour display time both mappers build from an instant:
`getHours()` / `getMinutes()` of the instant, `hours % 12 || 12` and an
AM/PM marker. -/
def instantToDisplayTime (t : Int) : TimeStr :=
  let hours := ((t.emod 86400).ediv 3600).toNat
  let minutes := ((t.emod 3600).ediv 60).toNat
  let hour12 := if hours % 12 == 0 then 12 else hours % 12
  let ampm := if hours ≥ 12 then Meridiem.pm else Meridiem.am
  ⟨hour12, minutes, some ampm⟩

/-- The initials `patientName.split(' ').map(n => n[0]).join('')
.toUpperCase().substring(0, 2)` (empty chunks contribute nothing to the
join). -/
def patientInitialsOf (name : String) : String :=
  ((((name.splitOn " ").filterMap (fun n => n.toList.head?)).map
      Char.toUpper).take 2).asString

/-- `AppointmentService.mapBackendToFrontend` (appointment.service.ts
329-409).  `nowInstant` stands for the `new Date()` fallback used when
`appointmentTime` is null.  The frontend fields `phone`, `patientId`,
`doctorId` and `paymentMethod` of the source are outside the embedded
`Appointment` record; `phone` is rendered as the empty string. -/
def AppointmentService.mapBackendToFrontend (backend : BackendAppointment)
    (nowInstant : Int) : Appointment :=
  let appointmentTime := backend.appointmentTime.getD nowInstant
  let date := appointmentTime.ediv 86400
  let time := instantToDisplayTime appointmentTime
  let username := backend.patient.bind (fun p => p.username)
  let email := backend.patient.bind (fun p => p.email)
  let patientName :=
    match username with
    | some un =>
      if !(un == "") && !(jsTrim un == "") && !(jsIncludes un "@") then jsTrim un
      else jsOr email "Unknown"
    | none => jsOr email "Unknown"
  let initials := patientInitialsOf patientName
  let doctorName := jsOr (backend.doctor.bind (fun d => d.name)) "Unknown Doctor"
  let backendStatus := (backend.status.map jsToUpper).getD ""
  let status :=
    if backendStatus == "PENDING" then "pending_approval"
    else if backendStatus == "APPROVED" || backendStatus == "SCHEDULED" then "scheduled"
    else if backendStatus == "DENIED" then "denied"
    else if backendStatus == "CANCELLED" then "cancelled"
    else if backendStatus == "COMPLETED" then "completed"
    else "pending_approval"
  { id := backend.id
    patientName := patientName
    patientInitials := initials
    doctor := doctorName
    date := date
    time := time
    type := backend.reason.getD ""
    reason := backend.reason.getD ""
    status := status
    phone := ""
    email := jsOr email ""
    cancellationMessage := none
    cancelledBy := none
    amount := jsOrRat backend.amount 100
    paymentStatus := jsOr backend.paymentStatus "pending" }

/-- The role-normalization loop of `loadAppointments` (appointment.service.ts
493-497): repeatedly strip a leading case-insensitive `ROLE_`; the fuel is the
string length, which bounds the number of iterations. -/
def stripRoleMarkers : Nat → String → String
  | 0, role => role
  | fuel + 1, role =>
    if jsToUpper (role.toList.take 5).asString == "ROLE_" then
      stripRoleMarkers fuel (role.toList.drop 5).asString
    else role

/-- `AppointmentService.loadAppointments` (appointment.service.ts 458-588).
Inputs stand for the environment: the loading flag, the authentication state,
the stored token, the stored user role, the HTTP outcome (`Except.error` for a
network/HTTP failure, `Except.ok none` for a null body) and the stored list.
Returns the new stored list and the emitted result; `catchError` turns a
failure into `of([])`, never a propagated error. -/
def loadAppointments (isLoading isAuth : Bool) (token userRole : Option String)
    (response : Except HttpError (Option (List BackendAppointment)))
    (nowInstant : Int) (state : List Appointment) :
    List Appointment × Except HttpError (List Appointment) :=
  if isLoading then (state, Except.ok state)
  else if !isAuth then ([], Except.ok [])
  else
    match token with
    | none => ([], Except.ok [])
    | some _ =>
      match userRole with
      | none => ([], Except.ok [])
      | some role0 =>
        let role := jsToUpper (stripRoleMarkers role0.length role0)
        if role == "PATIENT" || role == "DOCTOR" || role == "ADMIN" then
          match response with
          | Except.error _ => ([], Except.ok [])
          | Except.ok none => ([], Except.ok [])
          | Except.ok (some backends) =>
            let mapped := backends.map
              (fun b => AppointmentService.mapBackendToFrontend b nowInstant)
            (mapped, Except.ok mapped)
        else ([], Except.ok [])

/-- Nested appointment object of a backend payment
(payment.service.ts 30-46). -/
structure BackendPaymentAppointment where
  id : Nat
  appointmentTime : Int
  patient : Option BackendPatient
  doctor : Option BackendDoctor
deriving DecidableEq, Repr

/-- `BackendPayment` (payment.service.ts 28-53). -/
structure BackendPayment where
  id : Nat
  appointment : BackendPaymentAppointment
  amount : Option Rat
  paymentMethod : Option String
  status : Option String
  cardLast4 : Option String
  paymentDate : Option Int
  createdAt : Option Int
deriving DecidableEq, Repr

/-- `PaymentService.mapBackendToFrontend` (payment.service.ts 271-300):
derives the display date/time, falls back on username, then email, then
`'Unknown'` for the patient, applies the fixed 20/80 split to the amount. -/
def PaymentService.mapBackendToFrontend (backend : BackendPayment) : Payment :=
  let appointmentTime := backend.appointment.appointmentTime
  let date := appointmentTime.ediv 86400
  let time := instantToDisplayTime appointmentTime
  let amount := jsOrRat backend.amount 0
  let clinicTax := amount * CLINIC_TAX_RATE
  let doctorEarning := amount * DOCTOR_EARNING_RATE
  { id := backend.id
    appointmentId := backend.appointment.id
    patientName :=
      jsOr (backend.appointment.patient.bind (fun p => p.username))
        (jsOr (backend.appointment.patient.bind (fun p => p.email)) "Unknown")
    doctor := jsOr (backend.appointment.doctor.bind (fun d => d.name)) "Unknown Doctor"
    date := date
    time := time
    amount := amount
    clinicTax := clinicTax
    doctorEarning := doctorEarning
    status := jsOr backend.status "pending"
    paymentDate := backend.paymentDate
    paymentMethod := jsOr backend.paymentMethod "CASH"
    cardLast4 := backend.cardLast4
    createdAt := backend.createdAt.getD date }

/-- `PaymentService.loadPayments` (payment.service.ts 117-209): bail out to an
empty stored list when unauthenticated or the role is unknown; on a response
map the payments; on `catchError` clear the stored list and emit `of([])`,
never a propagated error. -/
def loadPayments (isAuth : Bool) (role : Option String)
    (response : Except HttpError (Option (List BackendPayment)))
    (_state : List Payment) :
    List Payment × Except HttpError (List Payment) :=
  if !isAuth then ([], Except.ok [])
  else
    match role with
    | none => ([], Except.ok [])
    | some r =>
      if r == "ADMIN" || r == "PATIENT" || r == "DOCTOR" then
        match response with
        | Except.error _ => ([], Except.ok [])
        | Except.ok none => ([], Except.ok [])
        | Except.ok (some backendPayments) =>
          let payments := backendPayments.map PaymentService.mapBackendToFrontend
          (payments, Except.ok payments)
      else ([], Except.ok [])

end ClinicUI

namespace ClinicUI

/-- Reducing a list with `fun sum p => sum + f p` starting from `init`
computes `init` plus the sum of the mapped values. -/
theorem foldl_add_map {α : Type} (f : α → Rat) :
    ∀ (l : List α) (init : Rat),
      l.foldl (fun sum p => sum + f p) init = init + (l.map f).sum := by
  intro l
  induction l with
  | nil => intro init; simp
  | cons hd tl ih => intro init; simp [ih, add_assoc]

/-- Two successive filters are one filter by the conjunction. -/
theorem filter_filter_and {α : Type} (p q : α → Bool) :
    ∀ l : List α, (l.filter p).filter q = l.filter (fun a => p a && q a) := by
  intro l
  induction l with
  | nil => rfl
  | cons hd tl ih =>
    by_cases hp : p hd <;> by_cases hq : q hd <;>
      simp [List.filter_cons, hp, hq, ih]

/-- C4: for every amount the payment split returns clinicTax = amount × 0.20
and doctorEarning = amount × 0.80; split(150) = {clinicTax: 30,
doctorEarning: 120}; and for every positive amount the two shares sum back to
the amount exactly. -/
theorem calculatePaymentBreakdown_correct :
    (calculatePaymentBreakdown 150 = { clinicTax := 30, doctorEarning := 120 }) ∧
    (∀ amount : Rat, calculatePaymentBreakdown amount =
        { clinicTax := amount * (20 / 100), doctorEarning := amount * (80 / 100) }) ∧
    (∀ amount : Rat, 0 < amount →
      (calculatePaymentBreakdown amount).clinicTax
        + (calculatePaymentBreakdown amount).doctorEarning = amount) := by
  refine ⟨?_, fun amount => rfl, fun amount _ => ?_⟩
  · show PaymentBreakdown.mk (150 * CLINIC_TAX_RATE) (150 * DOCTOR_EARNING_RATE) = _
    rw [CLINIC_TAX_RATE, DOCTOR_EARNING_RATE]
    norm_num
  show amount * CLINIC_TAX_RATE + amount * DOCTOR_EARNING_RATE = amount
  rw [CLINIC_TAX_RATE, DOCTOR_EARNING_RATE]
  ring

/-- Witness for C4: the split of the concrete amount 150 sums back to 150. -/
theorem calculatePaymentBreakdown_correct_witness :
    (0 : Rat) < 150 ∧
      (calculatePaymentBreakdown 150).clinicTax
        + (calculatePaymentBreakdown 150).doctorEarning = 150 :=
  ⟨by norm_num, calculatePaymentBreakdown_correct.2.2 150 (by norm_num)⟩

/-- C8: `getDoctorStatistics(doctorName)` aggregates exactly the payments whose
`doctor` equals `doctorName` and whose `status` is `'paid'`: `totalEarnings`
is the sum of their amounts, `clinicTaxTotal` the sum of their `clinicTax`
values, `netEarnings` the sum of their `doctorEarning` values,
`totalAppointments` their count; and a payment with status `'pending'` or
`'failed'` contributes nothing to the statistics. -/
theorem getDoctorStatistics_correct (paymentsState : List Payment)
    (doctorName : String) :
    ((getDoctorStatistics paymentsState doctorName).totalEarnings =
      ((paymentsState.filter fun p => p.doctor == doctorName && p.status == "paid").map
          (fun p => p.amount)).sum) ∧
    ((getDoctorStatistics paymentsState doctorName).clinicTaxTotal =
      ((paymentsState.filter fun p => p.doctor == doctorName && p.status == "paid").map
          (fun p => p.clinicTax)).sum) ∧
    ((getDoctorStatistics paymentsState doctorName).netEarnings =
      ((paymentsState.filter fun p => p.doctor == doctorName && p.status == "paid").map
          (fun p => p.doctorEarning)).sum) ∧
    ((getDoctorStatistics paymentsState doctorName).totalAppointments =
      (paymentsState.filter fun p => p.doctor == doctorName && p.status == "paid").length) ∧
    (∀ p ∈ (getDoctorStatistics paymentsState doctorName).payments,
        p.doctor = doctorName ∧ p.status = "paid") ∧
    (∀ q : Payment, q.status = "pending" ∨ q.status = "failed" →
        getDoctorStatistics (q :: paymentsState) doctorName =
          getDoctorStatistics paymentsState doctorName) := by
  have key : ∀ l : List Payment,
      (getPaymentsByDoctor l doctorName).filter (fun p => p.status == "paid") =
        l.filter (fun p => p.doctor == doctorName && p.status == "paid") :=
    fun l => filter_filter_and _ _ l
  refine ⟨?_, ?_, ?_, ?_, ?_, ?_⟩
  · simp [getDoctorStatistics, key, foldl_add_map]
  · simp [getDoctorStatistics, key, foldl_add_map]
  · simp [getDoctorStatistics, key, foldl_add_map]
  · simp [getDoctorStatistics, key]
  · intro p hp
    simp only [getDoctorStatistics, key, List.mem_filter, Bool.and_eq_true,
      beq_iff_eq] at hp
    exact hp.2
  · intro q hq
    have hstatus : (q.status == "paid") = false := by
      rcases hq with h | h <;> simp [h]
    simp [getDoctorStatistics, key, List.filter_cons, hstatus]

/-- Witness for C8: a payment with status `'pending'` leaves the statistics of
its doctor unchanged. -/
theorem getDoctorStatistics_correct_witness :
    getDoctorStatistics
        [⟨1, 1, "John Doe", "Dr. Smith", 0, ⟨9, 0, some Meridiem.am⟩, 150, 30,
          120, "pending", none, "CASH", none, 0⟩] "Dr. Smith" =
      getDoctorStatistics [] "Dr. Smith" :=
  (getDoctorStatistics_correct [] "Dr. Smith").2.2.2.2.2
    ⟨1, 1, "John Doe", "Dr. Smith", 0, ⟨9, 0, some Meridiem.am⟩, 150, 30, 120,
      "pending", none, "CASH", none, 0⟩ (Or.inl rfl)

/-- The source's branch-structured normalization agrees with the spec's
case-structured one on every time value. -/
theorem normalizeHours_eq_to24HourSpec (t : TimeStr) :
    normalizeHours t = to24HourSpec t := by
  rcases t with ⟨hh, mm, mer⟩
  rcases mer with _ | m
  · simp [normalizeHours, to24HourSpec]
  · cases m <;> by_cases h : hh = 12 <;>
      simp [normalizeHours, to24HourSpec, h]

/-- C5: `isAppointmentTimePassed` returns true exactly when the current time
is strictly after the combination of the appointment's date and time under the
spec's normalization (12 AM → hour 00, 12 PM stays hour 12); with time
"02:30 PM" and the clock at 10:00 of the same day it returns false; with time
"09:00 AM" on any past calendar day it returns true. -/
theorem isAppointmentTimePassed_correct :
    (∀ (apt : Appointment) (now : Int),
        isAppointmentTimePassed apt now = true ↔
          now > combineSpec apt.date apt.time) ∧
    (∀ d : Int,
        isAppointmentTimePassed
          (sampleAppointment d ⟨2, 30, some Meridiem.pm⟩)
          (mkInstant d 10 0) = false) ∧
    (∀ (d dNow : Int) (hn mn : Nat), d < dNow →
        isAppointmentTimePassed
          (sampleAppointment d ⟨9, 0, some Meridiem.am⟩)
          (mkInstant dNow hn mn) = true) := by
  refine ⟨?_, ?_, ?_⟩
  · intro apt now
    simp [isAppointmentTimePassed, appointmentInstant, combineSpec,
      normalizeHours_eq_to24HourSpec]
  · intro d
    simp only [isAppointmentTimePassed, appointmentInstant, sampleAppointment,
      normalizeHours, mkInstant, decide_eq_false_iff_not, not_lt]
    norm_num
    omega
  · intro d dNow hn mn hlt
    simp only [isAppointmentTimePassed, appointmentInstant, sampleAppointment,
      normalizeHours, mkInstant, decide_eq_true_eq]
    norm_num
    omega

/-- Witness for C5: an appointment at 09:00 AM on day 0 has passed when the
clock is at midnight of day 1. -/
theorem isAppointmentTimePassed_correct_witness :
    isAppointmentTimePassed (sampleAppointment 0 ⟨9, 0, some Meridiem.am⟩)
      (mkInstant 1 0 0) = true :=
  isAppointmentTimePassed_correct.2.2 0 1 0 0 (by norm_num)

/-- C6: with search, status and date filters disabled, the role filter keeps
for a patient exactly the appointments whose `patientName` equals the user's
name, for an admin every appointment, and for a doctor exactly the
appointments whose `doctor` field equals the user's `doctorName` — in each
case preserving the relative order of the input list. -/
theorem filteredAppointments_role_correct (appointments : List Appointment)
    (uid : Nat) (n email dn : String) (today monthFromNow : Int) :
    (filteredAppointments (some ⟨uid, n, email, "patient", none⟩) appointments
        "" "all" "all" today monthFromNow =
      appointments.filter (fun apt => apt.patientName == n)) ∧
    (filteredAppointments (some ⟨uid, n, email, "admin", none⟩) appointments
        "" "all" "all" today monthFromNow = appointments) ∧
    (filteredAppointments (some ⟨uid, n, email, "doctor", some dn⟩) appointments
        "" "all" "all" today monthFromNow =
      appointments.filter (fun apt => apt.doctor == dn)) := by
  refine ⟨?_, ?_, ?_⟩ <;> simp [filteredAppointments]

/-- C10: converting a valid 24-hour time to 12-hour form and back is the
identity; midnight `00:MM` renders as `12:MM AM` and converts back, and noon
`12:MM` renders as `12:MM PM` and converts back. -/
theorem convertTo24Hour_round_trip (h m : Nat) (hlt : h < 24) (_hm : m < 60) :
    (convertTo24Hour (convertTo12Hour ⟨h, m, none⟩) = ⟨h, m, none⟩) ∧
    (convertTo12Hour ⟨0, m, none⟩ = ⟨12, m, some Meridiem.am⟩) ∧
    (convertTo24Hour ⟨12, m, some Meridiem.am⟩ = ⟨0, m, none⟩) ∧
    (convertTo12Hour ⟨12, m, none⟩ = ⟨12, m, some Meridiem.pm⟩) ∧
    (convertTo24Hour ⟨12, m, some Meridiem.pm⟩ = ⟨12, m, none⟩) := by
  refine ⟨?_, by simp [convertTo12Hour], by simp [convertTo24Hour],
    by simp [convertTo12Hour], by simp [convertTo24Hour]⟩
  interval_cases h <;> simp [convertTo12Hour, convertTo24Hour]

/-- Witness for C10: the midnight time 00:30 round-trips. -/
theorem convertTo24Hour_round_trip_witness :
    convertTo24Hour (convertTo12Hour ⟨0, 30, none⟩) = ⟨0, 30, none⟩ :=
  (convertTo24Hour_round_trip 0 30 (by norm_num) (by norm_num)).1

/-- C9: when the backend load fails with a network/HTTP error, neither load
operation propagates the error to its caller: both clear the stored list and
emit the empty list as an ordinary (non-error) result. -/
theorem load_error_degrades_to_empty :
    (∀ (token role : String) (e : HttpError) (nowInstant : Int)
        (state : List Appointment),
        role ∈ (["ADMIN", "PATIENT", "DOCTOR"] : List String) →
        loadAppointments false true (some token) (some role)
            (Except.error e) nowInstant state = ([], Except.ok [])) ∧
    (∀ (role : String) (e : HttpError) (state : List Payment),
        role ∈ (["ADMIN", "PATIENT", "DOCTOR"] : List String) →
        loadPayments true (some role) (Except.error e) state =
          ([], Except.ok [])) := by
  constructor
  · intro token role e nowInstant state hrole
    fin_cases hrole <;> rfl
  · intro role e state hrole
    fin_cases hrole <;> rfl

/-- Witness for C9: an admin payments load failing with HTTP 500 clears the
stored list and yields the empty list. -/
theorem load_error_degrades_to_empty_witness :
    loadPayments true (some "ADMIN") (Except.error ⟨500, "boom"⟩)
        [⟨1, 1, "John Doe", "Dr. Smith", 0, ⟨9, 0, some Meridiem.am⟩, 150, 30,
          120, "paid", none, "CASH", none, 0⟩] = ([], Except.ok []) :=
  load_error_degrades_to_empty.2 "ADMIN" ⟨500, "boom"⟩
    [⟨1, 1, "John Doe", "Dr. Smith", 0, ⟨9, 0, some Meridiem.am⟩, 150, 30,
      120, "paid", none, "CASH", none, 0⟩] (by decide)

/-- C3: when the trimmed cancellation message is empty,
`confirmCancelAppointment` performs no state change: the stored appointment
list is returned unchanged and no request of any kind is issued. -/
theorem confirmCancelAppointment_empty_message (user : Option User)
    (message : String) (cancelling : Option Appointment)
    (appointments : List Appointment)
    (hmsg : jsTrim message = "") :
    confirmCancelAppointment user message cancelling appointments =
      (appointments, []) := by
  cases user with
  | none => rfl
  | some u => simp [confirmCancelAppointment, hmsg]

/-- Witness for C3: a whitespace-only message cancels nothing. -/
theorem confirmCancelAppointment_empty_message_witness :
    jsTrim "  " = "" ∧
      confirmCancelAppointment
          (some ⟨2, "John Doe", "john@mail.com", "PATIENT", none⟩) "  "
          (some (sampleAppointment 10 ⟨9, 0, some Meridiem.am⟩))
          [sampleAppointment 10 ⟨9, 0, some Meridiem.am⟩] =
        ([sampleAppointment 10 ⟨9, 0, some Meridiem.am⟩], []) :=
  ⟨by decide,
    confirmCancelAppointment_empty_message _ "  " _ _ (by decide)⟩

/-- Counterexample to C1: the code does not protect terminal statuses —
`updateAppointment` on a list whose only appointment is `cancelled`,
requested to set status `'accepted'` (exactly what the component's accept
operation sends), reassigns the terminal status to `'accepted'`. -/
theorem updateAppointment_reassigns_terminal :
    ((([⟨1, "John Doe", "JD", "Dr. Smith", 0, ⟨9, 0, some Meridiem.am⟩,
        "Checkup", "Checkup", "cancelled", "", "", none, none, 150,
        "pending"⟩] : List Appointment).map (fun apt => apt.status)) =
      ["cancelled"]) ∧
    ((updateAppointment
        [⟨1, "John Doe", "JD", "Dr. Smith", 0, ⟨9, 0, some Meridiem.am⟩,
          "Checkup", "Checkup", "cancelled", "", "", none, none, 150,
          "pending"⟩] 1 { status := some "accepted" }).map
        (fun apt => apt.status) = ["accepted"]) :=
  ⟨rfl, rfl⟩

/-- C1 amended: every appointment's status only ever holds one of the six
enumerated values — when the stored statuses are valid and the update's
status, if present, is valid (as the TypeScript union type enforces), the
updated list's statuses are valid; terminal statuses however are not
protected: `updateAppointment` overwrites any current status with the
requested one. -/
theorem updateAppointment_status_closed (appointments : List Appointment)
    (id : Nat) (updates : AppointmentUpdate)
    (hstate : appointments.all (fun apt => validStatus apt.status) = true)
    (hupd : updates.status.all validStatus = true) :
    (updateAppointment appointments id updates).all
      (fun apt => validStatus apt.status) = true := by
  unfold updateAppointment
  split
  · exact hstate
  · split
    · exact hstate
    · rename_i index apt hget
      rw [List.all_eq_true] at hstate ⊢
      intro b hb
      rcases List.mem_or_eq_of_mem_set hb with h | rfl
      · exact hstate b h
      · show validStatus (applyUpdates apt updates).status = true
        cases hs : updates.status with
        | none =>
          have hmem : apt ∈ appointments := by
            have hx := List.getElem?_eq_some.mp hget
            rcases hx with ⟨hlt, heq⟩
            exact heq ▸ List.getElem_mem hlt
          simpa [applyUpdates, hs] using hstate apt hmem
        | some s =>
          rw [hs] at hupd
          simpa [applyUpdates, hs] using hupd

/-- Counterexample to C2: a patient is permitted to cancel a
`pending_approval` appointment whose time has not passed, although its status
is neither `accepted` nor `scheduled`. -/
theorem canCancelAppointment_pending_counterexample :
    ((⟨1, "John Doe", "JD", "Dr. Smith", 10, ⟨9, 0, some Meridiem.am⟩,
        "Checkup", "Checkup", "pending_approval", "", "", none, none, 150,
        "pending"⟩ : Appointment).status ∉
      (["accepted", "scheduled"] : List String)) ∧
    canCancelAppointment (some ⟨2, "John Doe", "john@mail.com", "PATIENT", none⟩)
      ⟨1, "John Doe", "JD", "Dr. Smith", 10, ⟨9, 0, some Meridiem.am⟩,
        "Checkup", "Checkup", "pending_approval", "", "", none, none, 150,
        "pending"⟩ 10 (mkInstant 10 8 0) = true := by
  constructor
  · decide
  · decide

/-- C2 amended: cancellation is permitted exactly when the user is a doctor,
the appointment is not today and its status is neither `cancelled` nor
`completed`, or the user is a patient, the appointment's time has not passed
and its status is none of `cancelled`, `completed`, `denied` — statuses
`pending_approval` and `accepted` and (for doctors) appointments whose time
already passed are thus also cancellable; when permitted and confirmed with a
non-empty trimmed message, exactly one update request is issued and the
targeted appointment's entry gets status `'cancelled'` with the message and
the initiating role recorded. -/
theorem canCancelAppointment_correct :
    (∀ (u : User) (apt : Appointment) (today now : Int),
        canCancelAppointment (some u) apt today now = true ↔
          ((u.role = "DOCTOR" ∧ apt.date ≠ today ∧
              apt.status ≠ "cancelled" ∧ apt.status ≠ "completed") ∨
            (u.role = "PATIENT" ∧ ¬now > appointmentInstant apt ∧
              apt.status ≠ "cancelled" ∧ apt.status ≠ "completed" ∧
              apt.status ≠ "denied"))) ∧
    (∀ (u : User) (message : String) (apt : Appointment)
        (appointments : List Appointment),
        jsTrim message ≠ "" →
        confirmCancelAppointment (some u) message (some apt) appointments =
          (updateAppointment appointments apt.id
              { status := some "cancelled", cancellationMessage := some message,
                cancelledBy := some u.role },
            [ServiceRequest.update apt.id
                { status := some "cancelled",
                  cancellationMessage := some message,
                  cancelledBy := some u.role }])) ∧
    (∀ (appointments : List Appointment) (id : Nat) (message role : String)
        (index : Nat) (b : Appointment),
        appointments.findIdx? (fun apt => apt.id == id) = some index →
        appointments[index]? = some b →
        (updateAppointment appointments id
            { status := some "cancelled", cancellationMessage := some message,
              cancelledBy := some role })[index]? =
          some { b with status := "cancelled",
                        cancellationMessage := some message,
                        cancelledBy := some role }) := by
  refine ⟨?_, ?_, ?_⟩
  · intro u apt today now
    by_cases hd : u.role = "DOCTOR"
    · simp only [canCancelAppointment, isAppointmentToday,
        isAppointmentTimePassed, hd]
      simp
      tauto
    · by_cases hp : u.role = "PATIENT"
      · simp only [canCancelAppointment, isAppointmentToday,
          isAppointmentTimePassed, hp, hd]
        simp
        tauto
      · simp [canCancelAppointment, hd, hp]
  · intro u message apt appointments hmsg
    have h : (jsTrim message == "") = false := beq_eq_false_iff_ne.mpr hmsg
    simp [confirmCancelAppointment, h]
  · intro appointments id message role index b hfind hget
    have hlt : index < appointments.length := by
      rcases List.getElem?_eq_some.mp hget with ⟨hlt, _⟩
      exact hlt
    unfold updateAppointment
    simp only [hfind, hget]
    rw [List.getElem?_set_eq_of_lt _ hlt]
    rfl

/-- Witness for C2 amended: a patient confirming with message "I am sick"
issues exactly the cancel update recording the message and the role. -/
theorem canCancelAppointment_correct_witness :
    confirmCancelAppointment
        (some ⟨2, "John Doe", "john@mail.com", "PATIENT", none⟩) "I am sick"
        (some (sampleAppointment 10 ⟨9, 0, some Meridiem.am⟩)) [] =
      ([], [ServiceRequest.update 1
        { status := some "cancelled", cancellationMessage := some "I am sick",
          cancelledBy := some "PATIENT" }]) :=
  canCancelAppointment_correct.2.1 _ "I am sick" _ [] (by decide)

/-- Witness for C1 amended: updating a scheduled appointment to cancelled
keeps every status among the six enumerated values. -/
theorem updateAppointment_status_closed_witness :
    (updateAppointment
        [⟨1, "John Doe", "JD", "Dr. Smith", 0, ⟨9, 0, some Meridiem.am⟩,
          "Checkup", "Checkup", "scheduled", "", "", none, none, 150,
          "pending"⟩] 1 { status := some "cancelled" }).all
      (fun apt => validStatus apt.status) = true :=
  updateAppointment_status_closed _ 1 _ (by decide) (by decide)

/-- Counterexample to C7: a booking for tomorrow at 21:30 — a time of day
outside the clinic hours interval [09:00, 21:00] — passes every validation
and the create request is issued, because the source compares only the hour
(`hour < 9 || hour > 21`). -/
theorem saveAppointment_2130_counterexample :
    (saveAppointment ⟨1, some 101, some ⟨21, 30, none⟩, "Checkup", "CASH", 100⟩
        100 0 =
      some ⟨1, 101, ⟨21, 30, none⟩, "Checkup", "CASH", 100⟩) ∧
    ¬((⟨21, 30, none⟩ : TimeStr).hh * 60 + (⟨21, 30, none⟩ : TimeStr).mm ≤
        21 * 60) := by
  constructor
  · decide
  · decide

/-- C7 amended: `saveAppointment` rejects a booking exactly when no doctor is
selected, the date or time is empty, the trimmed reason is empty, the date is
before today, the hour is below 9 or above 21 (only the hour is compared, so
the out-of-hours times 21:01-21:59 are accepted), or the date is today and
the selected time (seconds zeroed) is strictly before the current time (a
time equal to the current minute at second zero is accepted); a booking for
tomorrow at 09:00 passes all validations. -/
theorem saveAppointment_validation (form : BookingForm) (today : Int)
    (nowSec : Nat) :
    (saveAppointment form today nowSec = none ↔
      form.doctorId = 0 ∨ form.date = none ∨ form.time = none ∨
      jsTrim form.reason = "" ∨
      (∃ d ∈ form.date, d < today) ∨
      (∃ t ∈ form.time, t.hh < 9 ∨ 21 < t.hh) ∨
      (∃ d ∈ form.date, d = today ∧
        ∃ t ∈ form.time, (t.hh * 60 + t.mm) * 60 < nowSec)) ∧
    (∀ (doctorId : Nat) (reason paymentMethod : String) (amount : Rat),
        doctorId ≠ 0 → jsTrim reason ≠ "" →
        saveAppointment ⟨doctorId, some (today + 1), some ⟨9, 0, none⟩, reason,
            paymentMethod, amount⟩ today nowSec =
          some ⟨doctorId, today + 1, ⟨9, 0, none⟩, reason, paymentMethod,
            amount⟩) := by
  constructor
  · rcases form with ⟨doctorId, date, time, reason, paymentMethod, amount⟩
    rcases date with _ | d
    · simp [saveAppointment]
    · rcases time with _ | t
      · simp [saveAppointment]
      · by_cases h0 : doctorId = 0
        · simp [saveAppointment, h0]
        · by_cases h1 : jsTrim reason = ""
          · simp [saveAppointment, h0, h1]
          · by_cases h2 : d < today
            · simp [saveAppointment, h0, h1, h2]
            · by_cases h3 : t.hh < 9 ∨ 21 < t.hh
              · have hb : (decide (t.hh < 9) || decide (21 < t.hh)) = true := by
                  rcases h3 with h | h <;> simp [h]
                simp [saveAppointment, h0, h1, h2, hb, h3]
              · push_neg at h3
                have hb : (decide (t.hh < 9) || decide (21 < t.hh)) = false := by
                  simp
                  omega
                by_cases h4 : d = today ∧ (t.hh * 60 + t.mm) * 60 < nowSec
                · have hc : (d == today &&
                      decide ((t.hh * 60 + t.mm) * 60 < nowSec)) = true := by
                    simp [h4.1, h4.2]
                  simp [saveAppointment, h0, h1, h2, hb, hc, h4.1, h4.2]
                · have hc : (d == today &&
                      decide ((t.hh * 60 + t.mm) * 60 < nowSec)) = false := by
                    rcases Decidable.not_and_iff_or_not.mp h4 with h | h <;>
                      simp [h]
                  simp [saveAppointment, h0, h1, h2, hb, hc]
                  constructor
                  · omega
                  · intro hd
                    rcases Decidable.not_and_iff_or_not.mp h4 with h | h
                    · exact absurd hd h
                    · omega
  · intro doctorId reason paymentMethod amount hdoc hreason
    have ha : ¬today + 1 < today := by omega
    have hb : today + 1 ≠ today := by omega
    simp [saveAppointment, hdoc, hreason, ha, hb]

/-- Witness for C7 amended: the concrete booking for day 1 (tomorrow relative
to day 0) at 09:00 is accepted. -/
theorem saveAppointment_validation_witness :
    saveAppointment ⟨1, some 1, some ⟨9, 0, none⟩, "Checkup", "CASH", 100⟩ 0 0 =
      some ⟨1, 1, ⟨9, 0, none⟩, "Checkup", "CASH", 100⟩ :=
  (saveAppointment_validation
      ⟨1, some 1, some ⟨9, 0, none⟩, "Checkup", "CASH", 100⟩ 0 0).2 1 "Checkup"
    "CASH" 100 (by decide) (by decide)

end ClinicUI
